import Mathlib

/-!
Verification of the dialectica-server static file server
(src/dialectica-server/src/main.rs).

The Rust source is a thin wrapper around the actix-web / actix-files
static file service:

  HttpServer::new(|| App::new()
      .service(fs::Files::new("/", "/var/www/assets/dialectica")
                  .index_file("index.html")))
  .bind("127.0.0.1:8000")?
  .run()
  .await

The configuration constants and the control flow of main are embedded
from the source.  The per-request resolution and response behaviour is
implemented inside the actix-files library, whose code is not part of
this repository; those parts are modelled from the specification
(sections 3, 4.1 and 7 of the spec), as marked on each definition.

Request paths are embedded in parsed form: the list of path segments
obtained by splitting the URL path on the slash character (empty
segments dropped), together with a flag recording whether the textual
path was "/" or ended with a slash.  File contents are byte lists.
-/

/-- Bytes of a file body, each entry one octet. -/
abbrev Bytes := List Nat

/-- The filesystem subtree rooted at root_directory: an association list
from segment paths to regular file contents, and the list of segment
paths that are directories (the root itself is the empty path). -/
structure FileSystem where
  files : List (List String × Bytes)
  dirs : List (List String)
deriving DecidableEq

/-- First association of a path in a file list. -/
def findFile : List (List String × Bytes) → List String → Option Bytes
  | [], _ => none
  | (q, c) :: rest, p => if q = p then some c else findFile rest p

/-- Content of the regular file at a path under the root, if any. -/
def FileSystem.fileAt (fs : FileSystem) (p : List String) : Option Bytes :=
  findFile fs.files p

/-- Well-formedness of the filesystem model, as on a real filesystem:
the root is a directory, the parent of every regular file is a
directory, no path is both a regular file and a directory, and the
parent of every non-root directory is a directory. -/
@[reducible]
def FileSystem.WF (fs : FileSystem) : Prop :=
  [] ∈ fs.dirs ∧
  (∀ pb ∈ fs.files, pb.1 ≠ [] ∧ pb.1.dropLast ∈ fs.dirs ∧ pb.1 ∉ fs.dirs) ∧
  (∀ d ∈ fs.dirs, d ≠ [] → d.dropLast ∈ fs.dirs)

/-- A request path in parsed form: slash-separated segments, and whether
the textual path was "/" or ended with a slash.  The path "/" is
⟨[], true⟩, the path "/app/" is ⟨["app"], true⟩, and the path
"/style.css" is ⟨["style.css"], false⟩. -/
structure ReqPath where
  segs : List String
  dirSlash : Bool
deriving DecidableEq

/-- Append a string (assumed to contain no slash) to the textual form of
a path, as string concatenation does: after a trailing slash it starts a
new segment, otherwise it extends the last segment. -/
def appendLast : List String → String → List String
  | [], s => [s]
  | [a], s => [a ++ s]
  | a :: b :: rest, s => a :: appendLast (b :: rest) s

/-- The parsed form of the textual path P ++ s, for s without a slash. -/
def ReqPath.appendStr (p : ReqPath) (s : String) : ReqPath :=
  if p.dirSlash then ⟨p.segs ++ [s], false⟩ else ⟨appendLast p.segs s, false⟩

/-- Server configuration, from src/dialectica-server/src/main.rs. -/
structure ServerConfig where
  bind_address : String
  root_directory : String
  index_file_name : String
deriving DecidableEq

/-- The compiled-in configuration constants of main.rs. -/
def serverConfig : ServerConfig :=
  ⟨"127.0.0.1:8000", "/var/www/assets/dialectica", "index.html"⟩

/-- The fixed index file name passed to index_file in main.rs. -/
def index_file_name : String := "index.html"

/-- Startup of main.rs reads no command line arguments and no
environment: the configuration is the compiled-in constant whatever the
process arguments and environment are. -/
def configAtStartup (_argv : List String) (_env : List (String × String)) :
    ServerConfig :=
  serverConfig

/-- Extension scan over the reversed character list of a file name:
the characters after the last dot, reversed, or none when no dot. -/
def revExt : List Char → Option (List Char)
  | [] => none
  | c :: rest => if c = '.' then some [] else (revExt rest).map (fun e => c :: e)

/-- Extension of a file name: the part after the last dot, empty when
the name has no dot. -/
def extOf (name : String) : String :=
  match revExt name.data.reverse with
  | some e => String.mk e.reverse
  | none => ""

/-- Modelled from the spec: the content type table of the actix-files
library (not in src/) is modelled best-effort from section 4.1 point 4
and section 8 scenario 2: a content type inferred from the file
extension, with css mapped to text/css and unknown extensions defaulting
to an octet-stream type. -/
def mimeOfExt (e : String) : String :=
  if e = "css" then "text/css"
  else if e = "html" then "text/html"
  else "application/octet-stream"

/-- Content type inferred from a file name via its extension. -/
def mimeOfName (n : String) : String := mimeOfExt (extOf n)

/-- An HTTP response: status code, body bytes, content type. -/
structure HttpResponse where
  status : Nat
  body : Bytes
  contentType : String
deriving DecidableEq

/-- The not-found response: 404 with an empty body (spec section 4.1:
"respond 404 Not Found with an empty or minimal body"). -/
def notFoundResponse : HttpResponse := ⟨404, [], "text/plain"⟩

/-- Modelled from the spec: resolution of a directory-like path (the
actix-files index_file substitution, not in src/), spec section 4.1
point 3: when the path names a directory or is the root, the index file
name is substituted inside that directory; the resource is that file
when it exists. -/
def resolveDir (fs : FileSystem) (segs : List String) :
    Option (List String × Bytes) :=
  if segs = [] ∨ segs ∈ fs.dirs then
    match fs.fileAt (segs ++ [index_file_name]) with
    | some b => some (segs ++ [index_file_name], b)
    | none => none
  else none

/-- Modelled from the spec: per-request resolution of the actix-files
service (not in src/), spec section 4.1 points 2 and 3: paths holding a
traversal segment are rejected; otherwise a path without a trailing
slash naming an existing regular file is that file, and a path naming a
directory (or the root, or a trailing-slash path) resolves through the
index file substitution. -/
def resolve (fs : FileSystem) (p : ReqPath) : Option (List String × Bytes) :=
  if ".." ∈ p.segs then none
  else if p.dirSlash = false then
    match fs.fileAt p.segs with
    | some b => some (p.segs, b)
    | none => resolveDir fs p.segs
  else resolveDir fs p.segs

/-- Modelled from the spec: the GET response of the actix-files service
(not in src/), spec section 4.1 point 4: a resolved resource is served
with status 200, its bytes as the body and a content type inferred from
its file name; otherwise the 404 response. -/
def respond (fs : FileSystem) (p : ReqPath) : HttpResponse :=
  match resolve fs p with
  | some (path, b) => ⟨200, b, mimeOfName (path.getLastD "")⟩
  | none => notFoundResponse

/-- Responses of the server to a sequence of GET requests: the server is
stateless per request, each request is answered by respond. -/
def serve (fs : FileSystem) (reqs : List ReqPath) : List HttpResponse :=
  reqs.map (respond fs)

/-- Outcome of one bind attempt of the operating system, an input to the
embedded main. -/
inductive BindResult where
  | ok : BindResult
  | err : String → BindResult
deriving DecidableEq

/-- Observable outcome of main: either the process terminated with a
non-zero exit status surfacing an error message, or it is running and
blocked accepting connections with the given configuration. -/
inductive MainOutcome where
  | exitErr : String → MainOutcome
  | running : ServerConfig → MainOutcome
deriving DecidableEq

/-- Control flow of main in main.rs: bind("127.0.0.1:8000")? propagates
a bind error out of main, which terminates the process with a non-zero
exit status printing the error; on success run().await blocks accepting
connections.  There is a single bind attempt and no retry. -/
def mainStart : BindResult → MainOutcome
  | BindResult.err m => MainOutcome.exitErr m
  | BindResult.ok => MainOutcome.running serverConfig

/-- Events reaching the listening server: a parsed GET request, a
malformed request, or a client disconnect during a response. -/
inductive Event where
  | request : ReqPath → Event
  | malformed : Event
  | disconnect : Event
deriving DecidableEq

/-- The 400-class response of the HTTP parsing layer to a malformed
request (spec section 7). -/
def badRequestResponse : HttpResponse := ⟨400, [], "text/plain"⟩

/-- Modelled from the spec: handling of one event by the request layer
(actix-web, not in src/), spec section 7: a request is answered, a
malformed request yields a 400-class response, a client disconnect
abandons the in-flight response; none of these touches server state. -/
def handleEvent (fs : FileSystem) : Event → Option HttpResponse
  | Event.request p => some (respond fs p)
  | Event.malformed => some badRequestResponse
  | Event.disconnect => none

/-- State of the running server: its configuration and whether the
listener is accepting connections. -/
structure ServerState where
  cfg : ServerConfig
  listening : Bool
deriving DecidableEq

/-- Modelled from the spec: one step of the listening server loop (spec
sections 4.1 and 7): the event is handled and the server keeps its
configuration and keeps listening. -/
def stepServer (fs : FileSystem) (s : ServerState) (e : Event) :
    ServerState × Option HttpResponse :=
  (s, handleEvent fs e)

/-- The server loop over a sequence of events, threading the state. -/
def runServer (fs : FileSystem) (s : ServerState) :
    List Event → ServerState × List (Option HttpResponse)
  | [] => (s, [])
  | e :: es =>
    ((runServer fs (stepServer fs s e).1 es).1,
      (stepServer fs s e).2 :: (runServer fs (stepServer fs s e).1 es).2)

/-- The state after binding: configuration held, listener accepting. -/
def initialState : ServerState := ⟨serverConfig, true⟩

/-- Example filesystem for the witnesses: the root holds index.html,
style.css and a subdirectory app holding its own index.html. -/
def exFs : FileSystem :=
  ⟨[(["index.html"], [104, 105]),
    (["style.css"], [98, 111]),
    (["app", "index.html"], [60, 97, 112, 112, 47, 62])],
   [[], ["app"]]⟩

theorem runServer_state (fs : FileSystem) (evts : List Event) :
    ∀ s : ServerState, (runServer fs s evts).1 = s := by
  induction evts with
  | nil => intro s; rfl
  | cons e es ih => intro s; simpa [runServer, stepServer] using ih s

theorem runServer_length (fs : FileSystem) (evts : List Event) :
    ∀ s : ServerState, (runServer fs s evts).2.length = evts.length := by
  induction evts with
  | nil => intro s; rfl
  | cons e es ih => intro s; simpa [runServer, stepServer] using ih _

theorem resolve_traversal (fs : FileSystem) (p : ReqPath)
    (h : ".." ∈ p.segs) : resolve fs p = none := by
  simp [resolve, h]

theorem findFile_mem {l : List (List String × Bytes)} {q : List String}
    {b : Bytes} (h : findFile l q = some b) : (q, b) ∈ l := by
  induction l with
  | nil => simp [findFile] at h
  | cons hd tl ih =>
    rw [show hd = (hd.1, hd.2) from rfl, findFile] at h
    split at h
    · rename_i heq
      injection h with h2
      subst heq
      subst h2
      exact List.mem_cons_self _ _
    · exact List.mem_cons_of_mem _ (ih h)

/-- C1: every request whose path holds a traversal segment (a ".."
segment, as in /../../etc/passwd) is answered 404 with an empty body, so
no content of any file outside root_directory is ever returned, and
repeating the same traversal request any number of times yields the very
same rejection. -/
theorem c1_traversal_rejected (fs : FileSystem) (p : ReqPath)
    (h : ".." ∈ p.segs) (n : Nat) :
    serve fs (List.replicate n p) = List.replicate n notFoundResponse := by
  have hr : respond fs p = notFoundResponse := by
    simp [respond, resolve_traversal fs p h]
  simp [serve, List.map_replicate, hr]

/-- C1 witness: three repetitions of the traversal request for
/../../etc/passwd against the example filesystem all yield the 404
response with empty body. -/
theorem c1_witness :
    serve exFs (List.replicate 3 (⟨["..", "..", "etc", "passwd"], false⟩ : ReqPath)) =
      List.replicate 3 notFoundResponse :=
  c1_traversal_rejected exFs ⟨["..", "..", "etc", "passwd"], false⟩ (by decide) 3

/-- C2: a GET request for a path without ".." segments and without a
trailing slash that names an existing regular file under root_directory
is answered 200 with a body equal byte for byte to that file. -/
theorem c2_existing_file_served (fs : FileSystem) (p : ReqPath) (b : Bytes)
    (hT : ".." ∉ p.segs) (hs : p.dirSlash = false)
    (hf : fs.fileAt p.segs = some b) :
    (respond fs p).status = 200 ∧ (respond fs p).body = b := by
  have hres : resolve fs p = some (p.segs, b) := by
    simp [resolve, hT, hs, hf]
  simp [respond, hres]

/-- C2 witness: GET /style.css on the example filesystem returns 200
with exactly the bytes of style.css. -/
theorem c2_witness :
    (respond exFs ⟨["style.css"], false⟩).status = 200 ∧
    (respond exFs ⟨["style.css"], false⟩).body = [98, 111] :=
  c2_existing_file_served exFs ⟨["style.css"], false⟩ [98, 111]
    (by decide) rfl (by decide)

/-- C3 counterexample: on a filesystem where the subdirectory app exists
and holds an index.html, the request path /app resolves to an existing
directory, yet its response (200 with the index body) differs from the
response for /app + "index.html", which is the path /appindex.html and
yields 404.  This refutes the claim for directory paths without a
trailing slash. -/
theorem c3_counterexample :
    (["app"] ∈ exFs.dirs ∧ (⟨["app"], false⟩ : ReqPath).dirSlash = false) ∧
    respond exFs ⟨["app"], false⟩ ≠
      respond exFs (ReqPath.appendStr ⟨["app"], false⟩ "index.html") := by
  decide

/-- C3 amended: for every request path P that ends in a slash (including
the root path /), on a well-formed filesystem and provided
root_directory + P + "index.html" is not itself a directory, the
response for P equals the response for the textual path
P + "index.html". -/
theorem c3_amended_dir_slash (fs : FileSystem) (p : ReqPath)
    (hwf : fs.WF) (hslash : p.dirSlash = true)
    (hnd : (p.segs ++ [index_file_name]) ∉ fs.dirs) :
    respond fs p = respond fs (p.appendStr "index.html") := by
  have hp2 : p.appendStr "index.html" = ⟨p.segs ++ [index_file_name], false⟩ := by
    simp [ReqPath.appendStr, hslash, index_file_name]
  rw [hp2]
  by_cases ht : ".." ∈ p.segs
  · have ht2 : ".." ∈ p.segs ++ [index_file_name] := List.mem_append_left _ ht
    simp [respond, resolve_traversal fs p ht,
      resolve_traversal fs ⟨p.segs ++ [index_file_name], false⟩ ht2]
  · have ht2 : ".." ∉ p.segs ++ [index_file_name] := by
      intro hmem
      rcases List.mem_append.mp hmem with hmem1 | hmem2
      · exact ht hmem1
      · simp [index_file_name] at hmem2
    cases hfa : fs.fileAt (p.segs ++ [index_file_name]) with
    | some b =>
      have hdir : p.segs = [] ∨ p.segs ∈ fs.dirs := by
        have hm := findFile_mem hfa
        have hpar := (hwf.2.1 _ hm).2.1
        rw [List.dropLast_concat] at hpar
        exact Or.inr hpar
      have hL : resolve fs p = some (p.segs ++ [index_file_name], b) := by
        simp [resolve, ht, hslash, resolveDir, hdir, hfa]
      have hR : resolve fs ⟨p.segs ++ [index_file_name], false⟩ =
          some (p.segs ++ [index_file_name], b) := by
        simp [resolve, ht2, hfa]
      simp [respond, hL, hR]
    | none =>
      have hL : resolve fs p = none := by
        simp [resolve, ht, hslash, resolveDir, hfa]
      have hR : resolve fs ⟨p.segs ++ [index_file_name], false⟩ = none := by
        simp [resolve, ht2, hfa, resolveDir, hnd]
      simp [respond, hL, hR]

/-- C3 witness for the amended claim: on the example filesystem the
response for /app/ equals the response for /app/index.html. -/
theorem c3_witness :
    respond exFs ⟨["app"], true⟩ =
      respond exFs (ReqPath.appendStr ⟨["app"], true⟩ "index.html") :=
  c3_amended_dir_slash exFs ⟨["app"], true⟩ (by decide) rfl (by decide)

/-- C4: GET / returns 200 with a body equal byte for byte to
root_directory/index.html when that file exists, and returns 404 when it
does not. -/
theorem c4_root_index (fs : FileSystem) :
    (∀ b : Bytes, fs.fileAt [index_file_name] = some b →
      respond fs ⟨[], true⟩ = ⟨200, b, "text/html"⟩) ∧
    (fs.fileAt [index_file_name] = none →
      (respond fs ⟨[], true⟩).status = 404) := by
  constructor
  · intro b hb
    have hres : resolve fs ⟨[], true⟩ = some ([index_file_name], b) := by
      simp [resolve, resolveDir, hb]
    have hm : mimeOfName index_file_name = "text/html" := by decide
    simp [respond, hres, hm]
  · intro hb
    have hres : resolve fs ⟨[], true⟩ = none := by
      simp [resolve, resolveDir, hb]
    simp [respond, hres, notFoundResponse]

/-- C4 witness: GET / on the example filesystem (whose root index.html
exists) returns 200 with exactly its bytes. -/
theorem c4_witness :
    respond exFs ⟨[], true⟩ = ⟨200, [104, 105], "text/html"⟩ :=
  (c4_root_index exFs).1 [104, 105] (by decide)

/-- C5: the configuration is exactly the three compiled-in constants of
main.rs — bind address 127.0.0.1:8000, root directory
/var/www/assets/dialectica, index file name index.html — it is the same
whatever the process arguments and environment are, and the server loop
never mutates it for the life of the process. -/
theorem c5_fixed_configuration (argv : List String)
    (env : List (String × String)) (fs : FileSystem) (evts : List Event) :
    configAtStartup argv env = serverConfig ∧
    serverConfig.bind_address = "127.0.0.1:8000" ∧
    serverConfig.root_directory = "/var/www/assets/dialectica" ∧
    serverConfig.index_file_name = "index.html" ∧
    (runServer fs initialState evts).1.cfg = serverConfig := by
  refine ⟨rfl, rfl, rfl, rfl, ?_⟩
  rw [runServer_state fs evts initialState]
  rfl

/-- C5 witness: with concrete arguments, environment and event sequence,
the configuration is the fixed constant and survives the run. -/
theorem c5_witness :
    configAtStartup ["--port", "9000"] [("PORT", "9000")] = serverConfig ∧
    serverConfig.bind_address = "127.0.0.1:8000" ∧
    serverConfig.root_directory = "/var/www/assets/dialectica" ∧
    serverConfig.index_file_name = "index.html" ∧
    (runServer exFs initialState [Event.malformed]).1.cfg = serverConfig :=
  c5_fixed_configuration ["--port", "9000"] [("PORT", "9000")] exFs
    [Event.malformed]

/-- C6: when the single bind attempt of main fails, the process
terminates with a non-zero exit status surfacing the bind error and
without any retry; when it succeeds, the process is running and blocked
accepting connections with the fixed configuration. -/
theorem c6_bind_outcome (m : String) :
    mainStart (BindResult.err m) = MainOutcome.exitErr m ∧
    mainStart BindResult.ok = MainOutcome.running serverConfig :=
  ⟨rfl, rfl⟩

/-- C6 witness: the concrete bind failure "address in use" terminates
the process surfacing that error, and a successful bind leaves the
server running. -/
theorem c6_witness :
    mainStart (BindResult.err "address in use") =
      MainOutcome.exitErr "address in use" ∧
    mainStart BindResult.ok = MainOutcome.running serverConfig :=
  c6_bind_outcome "address in use"

/-- C7: a request path that names no existing regular file (a
trailing-slash path never names one) and whose index substitution names
no existing regular file either is answered 404 with an empty body, so
no content of any file under root_directory leaks. -/
theorem c7_not_found (fs : FileSystem) (p : ReqPath)
    (h1 : p.dirSlash = false → fs.fileAt p.segs = none)
    (h2 : fs.fileAt (p.segs ++ [index_file_name]) = none) :
    respond fs p = notFoundResponse := by
  have hd : resolveDir fs p.segs = none := by simp [resolveDir, h2]
  have hres : resolve fs p = none := by
    by_cases ht : ".." ∈ p.segs
    · exact resolve_traversal fs p ht
    · cases hs : p.dirSlash with
      | false => simp [resolve, ht, hs, h1 hs, hd]
      | true => simp [resolve, ht, hs, hd]
  simp [respond, hres]

/-- C7 witness: GET /missing.js on the example filesystem returns the
404 response with empty body. -/
theorem c7_witness :
    respond exFs ⟨["missing.js"], false⟩ = notFoundResponse :=
  c7_not_found exFs ⟨["missing.js"], false⟩ (fun _ => by decide) (by decide)

/-- C8: every served file is answered with the content type inferred
from its file name extension, the css extension is mapped to text/css,
and any extension outside the known table is mapped to the octet-stream
type. -/
theorem c8_content_type (fs : FileSystem) (p : ReqPath) (path : List String)
    (b : Bytes) (e : String) (h : resolve fs p = some (path, b))
    (h1 : e ≠ "css") (h2 : e ≠ "html") :
    (respond fs p).contentType = mimeOfExt (extOf (path.getLastD "")) ∧
    mimeOfExt (extOf "style.css") = "text/css" ∧
    mimeOfExt e = "application/octet-stream" := by
  refine ⟨?_, by decide, ?_⟩
  · simp [respond, h, mimeOfName]
  · simp [mimeOfExt, h1, h2]

/-- C8 witness: GET /style.css is served with content type text/css, and
the concrete unknown extension xyz maps to the octet-stream type. -/
theorem c8_witness :
    (respond exFs ⟨["style.css"], false⟩).contentType =
      mimeOfExt (extOf ((["style.css"] : List String).getLastD "")) ∧
    mimeOfExt (extOf "style.css") = "text/css" ∧
    mimeOfExt "xyz" = "application/octet-stream" :=
  c8_content_type exFs ⟨["style.css"], false⟩ ["style.css"] [98, 111] "xyz"
    (by decide) (by decide) (by decide)

/-- C9: over every event sequence — requests, not-found requests,
malformed requests, client disconnects — the listener is still accepting
connections afterwards and every event was processed (one outcome per
event); and the only process-fatal outcome of main is a bind failure:
whenever main terminates with an error, the bind attempt was that
failure. -/
theorem c9_listener_survives (fs : FileSystem) (evts : List Event)
    (o : BindResult) (m : String)
    (hfatal : mainStart o = MainOutcome.exitErr m) :
    (runServer fs initialState evts).1.listening = true ∧
    (runServer fs initialState evts).2.length = evts.length ∧
    o = BindResult.err m := by
  refine ⟨?_, runServer_length fs evts initialState, ?_⟩
  · rw [runServer_state fs evts initialState]
    rfl
  · cases o with
    | ok => simp [mainStart] at hfatal
    | err m2 =>
      simp only [mainStart, MainOutcome.exitErr.injEq] at hfatal
      rw [hfatal]

/-- C9 witness: after a malformed request, a served request, a traversal
request and a client disconnect, the listener of the example server is
still accepting and produced one outcome per event; and the concrete
fatal outcome "port busy" came from the bind failure "port busy". -/
theorem c9_witness :
    (runServer exFs initialState
      [Event.malformed, Event.request ⟨["style.css"], false⟩,
        Event.request ⟨["..", "etc"], false⟩, Event.disconnect]).1.listening
        = true ∧
    (runServer exFs initialState
      [Event.malformed, Event.request ⟨["style.css"], false⟩,
        Event.request ⟨["..", "etc"], false⟩, Event.disconnect]).2.length =
      [Event.malformed, Event.request ⟨["style.css"], false⟩,
        Event.request ⟨["..", "etc"], false⟩, Event.disconnect].length ∧
    BindResult.err "port busy" = BindResult.err "port busy" :=
  c9_listener_survives exFs
    [Event.malformed, Event.request ⟨["style.css"], false⟩,
      Event.request ⟨["..", "etc"], false⟩, Event.disconnect]
    (BindResult.err "port busy") "port busy" rfl
